import Mathlib

/-!
Verification of the two-service microservice demo (user directory + order
ledger), shallowly embedded from the TypeScript source.

Conventions of the embedding:
* JSON numbers are modelled as `Rat` (the code never does arithmetic on
  them; they are carried verbatim, so exact rationals are a faithful
  stand-in for the concrete values the claims mention).
* The outbound HTTP transport is modelled by an environment function
  `String → HttpOutcome β`: what the network yields for a lookup of a given
  id.  `HttpOutcome.netFail` covers a network error or a timeout (no
  response at all); `HttpOutcome.status c b` is a response with status
  code `c` and parsed JSON body `b`.
* The axios client used by both variants rejects (throws) when the call
  fails at the transport level or when the status code is outside 2xx
  (axios's default `validateStatus` accepts `200 <= status < 300`).
* Handlers that mutate state are `State → Response × State`; handlers that
  cannot respond because an `async` rejection escaped them return
  `HandlerOutcome.unhandledRejection`.
-/

/-- Type `User` from `monorepo/packages/shared` (`{id, name, email}`). -/
structure User where
  id : String
  name : String
  email : String
deriving Repr, DecidableEq

/-- Type `Order` from `monorepo/packages/shared`
(`{id, userId, product, quantity, total}`). -/
structure Order where
  id : String
  userId : String
  product : String
  quantity : Rat
  total : Rat
deriving Repr, DecidableEq

/-- Type `ApiResponse<T>` from `monorepo/packages/shared`:
`{success: boolean, data?: T, error?: string}`. -/
structure ApiResponse (T : Type) where
  success : Bool
  data : Option T
  error : Option String
deriving Repr, DecidableEq

/-- An HTTP response as produced by an Express handler: the status code it
set (200 when `res.json` is called without `res.status`) and the JSON body. -/
structure HttpResponse (B : Type) where
  status : Nat
  body : B
deriving Repr, DecidableEq

/-- What one outbound HTTP call yields from the transport's point of view:
either a response with some status code and parsed body, or no response at
all (network error or timeout). -/
inductive HttpOutcome (B : Type) where
  | status (code : Nat) (body : B)
  | netFail
deriving Repr, DecidableEq

/-- Outcome of running one Express handler: it produced a response, or an
`async` rejection escaped it (Express 4 passes such rejections to nobody:
nothing formatted is ever sent). -/
inductive HandlerOutcome (A : Type) where
  | responded (a : A)
  | unhandledRejection
deriving Repr, DecidableEq

/-! ### `generateId` (shared utils)

`Math.random().toString(36).substring(2, 15)`.

`Math.random()` returns a double in `[0,1)`.  `toString(36)` renders `0`
as `"0"` and a positive draw as `"0."` followed by a finite sequence of
base-36 fraction digits (how many digits, and which, is fixed by the draw
and the runtime's dtoa; we model the rendered digit sequence itself as the
nondeterministic input).  `substring(2, 15)` then keeps the characters at
indices 2..14. -/

/-- One draw of `Math.random()` as seen through `toString(36)`: either the
draw was exactly `0`, or it was positive and rendered as `"0."` followed by
the given base-36 fraction digits. -/
inductive JsDraw where
  | zero
  | pos (digits : List (Fin 36))
deriving Repr, DecidableEq

/-- The character JavaScript uses for one base-36 digit: `0-9` then `a-z`. -/
def base36Char (d : Fin 36) : Char :=
  if d.val < 10 then Char.ofNat (48 + d.val) else Char.ofNat (87 + d.val)

/-- Rendering `r.toString(36)` for a draw `r` of `Math.random()`. -/
def jsToString36 : JsDraw → String
  | JsDraw.zero => "0"
  | JsDraw.pos ds => "0." ++ String.mk (ds.map base36Char)

/-- JavaScript `String.prototype.substring(a, b)` for non-negative
arguments: clamp both to the length, swap if out of order, and take the
characters in between. -/
def jsSubstring (s : String) (a b : Nat) : String :=
  String.mk (((s.data.drop (min a b)).take (max a b - min a b)))

/-- Function `generateId` from the shared utils:
`Math.random().toString(36).substring(2, 15)`. -/
def generateId (r : JsDraw) : String :=
  jsSubstring (jsToString36 r) 2 15

/-- Function `formatError` from the shared utils: an `Error`'s `message`, otherwise
`String(error)`. The thrown JS value is modelled by which branch it takes. -/
inductive JsError where
  | errorObj (message : String)
  | other (stringed : String)
deriving Repr, DecidableEq

def formatError : JsError → String
  | JsError.errorObj m => m
  | JsError.other s => s

/-! ### Monorepo user-service -/

/-- The seeded `users` array of
`monorepo/apps/user-service/src/controllers/user.controller.ts`. -/
def usersSeed : List User :=
  [⟨"1", "John Doe", "john@example.com"⟩,
   ⟨"2", "Jane Smith", "jane@example.com"⟩]

/-- The body of the user controller's lookup over an arbitrary `users`
array: `users.find(u => u.id === req.params.id)`, answering
`{success:true, data:user}` (status 200) or
404 `{success:false, error:'User not found'}`. -/
def userLookupIn (users : List User) (id : String) :
    HttpResponse (ApiResponse User) :=
  match users.find? (fun u => u.id == id) with
  | some u => ⟨200, ⟨true, some u, none⟩⟩
  | none => ⟨404, ⟨false, none, some "User not found"⟩⟩

/-- Handler `getUserById` of the monorepo user controller, over the seeded array. -/
def userCtrlGetUserById (id : String) : HttpResponse (ApiResponse User) :=
  userLookupIn usersSeed id

/-- The transport environment in which the network works and the monorepo
user-service is up: a lookup of `id` yields exactly the directory
controller's response. -/
def directoryEnv (id : String) : HttpOutcome (ApiResponse User) :=
  HttpOutcome.status (userCtrlGetUserById id).status (userCtrlGetUserById id).body

/-! ### Monorepo order-service -/

/-- Client `getUserById` of
`monorepo/apps/order-service/src/services/user.service.ts`:
`httpClient.get(...)` then `return response.data.data || null`, with a
`catch` that returns `null` on any rejection (network error, timeout, or
non-2xx status).  The `env` argument is the transport: what the call for a
given id yields. -/
def userSvcGetUserById (env : String → HttpOutcome (ApiResponse User))
    (userId : String) : Option User :=
  match env userId with
  | HttpOutcome.status c body =>
      if 200 ≤ c ∧ c < 300 then body.data else none
  | HttpOutcome.netFail => none

/-- The request body of `POST /orders`:
`const { userId, product, quantity, total } = req.body`. -/
structure OrderReq where
  userId : String
  product : String
  quantity : Rat
  total : Rat
deriving Repr, DecidableEq

/-- Handler `createOrder` of
`monorepo/apps/order-service/src/controllers/order.controller.ts`, with the
module-level `orders` array passed as explicit state.  It awaits the lookup
client; a `null` user yields 404 `{success:false, error:'User not found'}`
with the state unchanged; otherwise the order (with a fresh `generateId`
draw) is pushed and answered as 201 `{success:true, data:order}`.  Nothing
in the body can throw in this model, so the `catch` branch
(500 `'Failed to create order'`) is unreachable, exactly as in the source
where the lookup client never rejects. -/
def createOrder (st : List Order) (req : OrderReq)
    (env : String → HttpOutcome (ApiResponse User)) (draw : JsDraw) :
    HttpResponse (ApiResponse Order) × List Order :=
  match userSvcGetUserById env req.userId with
  | none => (⟨404, ⟨false, none, some "User not found"⟩⟩, st)
  | some _ =>
      let o : Order :=
        ⟨generateId draw, req.userId, req.product, req.quantity, req.total⟩
      (⟨201, ⟨true, some o, none⟩⟩, st ++ [o])

/-- One order-creation request together with its nondeterministic
environment: the transport's behaviour during the request and the
`Math.random()` draw consumed by `generateId`. -/
structure CreateEvent where
  req : OrderReq
  env : String → HttpOutcome (ApiResponse User)
  draw : JsDraw

/-- The `orders` array reached by serving a sequence of `POST /orders`
requests from the empty initial array. -/
def runCreates (evs : List CreateEvent) : List Order :=
  evs.foldl (fun st ev => (createOrder st ev.req ev.env ev.draw).2) []

/-- Middleware `errorHandler` of
`monorepo/apps/order-service/src/middleware/error.middleware.ts`:
any error reaching it becomes 500 `{success:false, error:formatError(err)}`. -/
def errorHandler (err : JsError) : HttpResponse (ApiResponse Unit) :=
  ⟨500, ⟨false, none, some (formatError err)⟩⟩

/-! ### Stateful view of the read-only handlers (for the purity claim)

The observable state of the two services is the `users` array and the
`orders` array.  The three GET handlers only call `res.json` on data read
from that state; the embedding records this by returning the state they
were given. -/

structure SysState where
  users : List User
  orders : List Order
deriving Repr, DecidableEq

/-- Handler `getUsers` of the monorepo user controller, as a state transformer. -/
def getUsersH (s : SysState) :
    HttpResponse (ApiResponse (List User)) × SysState :=
  (⟨200, ⟨true, some s.users, none⟩⟩, s)

/-- Handler `getUserById` of the monorepo user controller, as a state transformer. -/
def getUserByIdH (s : SysState) (id : String) :
    HttpResponse (ApiResponse User) × SysState :=
  (userLookupIn s.users id, s)

/-- Handler `getOrders` of the monorepo order controller, as a state transformer. -/
def getOrdersH (s : SysState) :
    HttpResponse (ApiResponse (List Order)) × SysState :=
  (⟨200, ⟨true, some s.orders, none⟩⟩, s)

/-! ### Plain (non-monorepo) variant -/

/-- Type `User` of the plain variant's order-service lookup client
(`{id, name, role}`). -/
structure PlainUser where
  id : String
  name : String
  role : String
deriving Repr, DecidableEq

/-- Client `getUserById` of the plain order-service's `services/user.service.ts`:
`httpClient.get<User>(USER_SERVICE_URL + '/api/users/' + id)` then
`return response.data` — there is no `catch`, so a transport failure or a
non-2xx status propagates as a rejection (`Except.error`). The axios-style
client (the variant's `utils/httpClient`) rejects exactly as the shared
monorepo client does. -/
def plainSvcGetUserById (env : String → HttpOutcome PlainUser)
    (id : String) : Except Unit PlainUser :=
  match env id with
  | HttpOutcome.status c body =>
      if 200 ≤ c ∧ c < 300 then Except.ok body else Except.error ()
  | HttpOutcome.netFail => Except.error ()

/-- The body of the plain variant's `GET /api/orders/:orderId` response:
`{orderId: req.params.orderId, product: "Laptop", user}`. -/
structure PlainOrderView where
  orderId : String
  product : String
  user : PlainUser
deriving Repr, DecidableEq

/-- Handler `getOrder` of the plain
`order-service/src/controllers/order.controller.ts`: it awaits
`getUserById("1")` (the identifier is hardcoded) and responds
`{orderId, product: "Laptop", user}`; it has no `try/catch`, so a rejected
lookup escapes the handler (and the plain app installs no error
middleware). -/
def plainGetOrder (orderId : String) (env : String → HttpOutcome PlainUser) :
    HandlerOutcome PlainOrderView :=
  match plainSvcGetUserById env "1" with
  | Except.ok u => HandlerOutcome.responded ⟨orderId, "Laptop", u⟩
  | Except.error _ => HandlerOutcome.unhandledRejection


/-! ## Claims -/

/-- Claim C1, evaluated on the code at the failing inputs: when the lookup
fails at the transport level (network error / timeout, modelled by
`netFail`) or the directory answers with a server error (status 500), the
monorepo `createOrder` appends nothing — but it responds with exactly the
404 `{success:false, error:'User not found'}` envelope, not a distinct
dependency-failure indication.  This is the coercion the spec flags as a
defect: the code contradicts the claim's second half. -/
theorem c1_transport_failure_coerced_to_not_found
    (st : List Order) (req : OrderReq) (draw : JsDraw)
    (body : ApiResponse User) :
    createOrder st req (fun _ => HttpOutcome.netFail) draw
      = (⟨404, ⟨false, none, some "User not found"⟩⟩, st)
    ∧ createOrder st req (fun _ => HttpOutcome.status 500 body) draw
      = (⟨404, ⟨false, none, some "User not found"⟩⟩, st) := by
  exact ⟨rfl, rfl⟩

/-- Claim C2: with the directory reachable (`directoryEnv`), an
order-creation request whose `userId` matches no seeded user yields
404 `{success:false, error:'User not found'}` and leaves the orders
collection exactly as it was. -/
theorem c2_absent_user_rejected
    (st : List Order) (req : OrderReq) (draw : JsDraw)
    (h : ∀ u ∈ usersSeed, u.id ≠ req.userId) :
    createOrder st req directoryEnv draw
      = (⟨404, ⟨false, none, some "User not found"⟩⟩, st) := by
  have hf : usersSeed.find? (fun u => u.id == req.userId) = none := by
    rw [List.find?_eq_none]
    intro u hu
    simpa using h u hu
  simp [createOrder, userSvcGetUserById, directoryEnv, userCtrlGetUserById,
    userLookupIn, hf]

/-- Witness for C2 at the concrete absent identifier `"999"`. -/
theorem c2_absent_user_rejected_witness :
    createOrder [] ⟨"999", "Laptop", 1, 999⟩ directoryEnv JsDraw.zero
      = (⟨404, ⟨false, none, some "User not found"⟩⟩, []) :=
  c2_absent_user_rejected [] ⟨"999", "Laptop", 1, 999⟩ JsDraw.zero (by decide)

/-- Claim C4: a lookup of any seeded user's id answers 200
`{success:true, data:user}` with exactly that user's fields, and a lookup
of any id matching no seeded user answers 404
`{success:false, error:'User not found'}` with no payload. -/
theorem c4_directory_lookup
    (u : User) (hu : u ∈ usersSeed)
    (id : String) (hid : ∀ v ∈ usersSeed, v.id ≠ id) :
    userCtrlGetUserById u.id = ⟨200, ⟨true, some u, none⟩⟩ ∧
    userCtrlGetUserById id = ⟨404, ⟨false, none, some "User not found"⟩⟩ := by
  constructor
  · simp only [usersSeed, List.mem_cons, List.mem_singleton,
      List.not_mem_nil, or_false] at hu
    rcases hu with rfl | rfl <;> rfl
  · have hf : usersSeed.find? (fun v => v.id == id) = none := by
      rw [List.find?_eq_none]
      intro v hv
      simpa using hid v hv
    simp [userCtrlGetUserById, userLookupIn, hf]

/-- Witness for C4 at the seeded user `"1"` and the absent id `"999"`. -/
theorem c4_directory_lookup_witness :
    userCtrlGetUserById "1"
      = ⟨200, ⟨true, some ⟨"1", "John Doe", "john@example.com"⟩, none⟩⟩ ∧
    userCtrlGetUserById "999"
      = ⟨404, ⟨false, none, some "User not found"⟩⟩ :=
  c4_directory_lookup ⟨"1", "John Doe", "john@example.com"⟩ (by decide)
    "999" (by decide)

/-- Claim C6: the three GET handlers are pure queries — each returns the
state it was given (so iterating any of them any number of times fixes the
state), and a repeated call with the same identifier returns the same
response. -/
theorem c6_pure_queries (s : SysState) (id : String) (n : Nat) :
    (getUserByIdH s id).2 = s ∧ (getUsersH s).2 = s ∧ (getOrdersH s).2 = s ∧
    (fun t => (getUserByIdH t id).2)^[n] s = s ∧
    (fun t => (getOrdersH t).2)^[n] s = s ∧
    (getUserByIdH ((getUserByIdH s id).2) id).1 = (getUserByIdH s id).1 ∧
    (getOrdersH ((getOrdersH s).2)).1 = (getOrdersH s).1 :=
  ⟨rfl, rfl, rfl, Function.iterate_fixed rfl n, Function.iterate_fixed rfl n,
    rfl, rfl⟩

/-- Two creation requests for the existing user `"1"`, both served while
the directory is reachable, whose `Math.random()` draws happen to render
the same base-36 digits — a possible pair of draws, since `Math.random()`
gives no distinctness guarantee. -/
def c3Events : List CreateEvent :=
  [⟨⟨"1", "Laptop", 1, 999⟩, directoryEnv, JsDraw.pos [1]⟩,
   ⟨⟨"1", "Phone", 1, 499⟩, directoryEnv, JsDraw.pos [1]⟩]

/-- Counterexample to Claim C3's uniqueness half: after serving
`c3Events`, the process holds two orders and their generated `id` fields
coincide (both are `"1"`), so it is not true that every pair of orders
created in the same process has distinct ids. -/
theorem c3_counterexample :
    (runCreates c3Events).length = 2 ∧
    ¬ ((runCreates c3Events).map Order.id).Nodup := by
  exact ⟨by decide, by decide⟩

/-- Claim C3 as amended: when the requested `userId` matches a seeded user
and the directory is reachable, `createOrder` answers 201
`{success:true, data:order}`, the returned order's `userId` equals the
request's, and the order is appended; its `id` is exactly the
`generateId` output for that call's draw — so ids of two such orders are
distinct only when those outputs are, which no draw guarantees. -/
theorem c3_amended_created_with_201
    (st : List Order) (req : OrderReq) (draw : JsDraw)
    (h : ∃ u ∈ usersSeed, u.id = req.userId) :
    ∃ o : Order,
      createOrder st req directoryEnv draw
        = (⟨201, ⟨true, some o, none⟩⟩, st ++ [o]) ∧
      o.userId = req.userId ∧ o.id = generateId draw := by
  obtain ⟨u, hu, hid⟩ := h
  have hs : (usersSeed.find? (fun v => v.id == req.userId)).isSome := by
    rw [List.find?_isSome]
    exact ⟨u, hu, by simpa using hid⟩
  obtain ⟨w, hw⟩ := Option.isSome_iff_exists.mp hs
  refine ⟨⟨generateId draw, req.userId, req.product, req.quantity, req.total⟩,
    ?_, rfl, rfl⟩
  simp [createOrder, userSvcGetUserById, directoryEnv, userCtrlGetUserById,
    userLookupIn, hw]

/-- Witness for the amended C3 at the seeded user `"1"`. -/
theorem c3_amended_created_with_201_witness :
    ∃ o : Order,
      createOrder [] ⟨"1", "Laptop", 1, 999⟩ directoryEnv (JsDraw.pos [1])
        = (⟨201, ⟨true, some o, none⟩⟩, [] ++ [o]) ∧
      o.userId = "1" ∧ o.id = generateId (JsDraw.pos [1]) :=
  c3_amended_created_with_201 [] ⟨"1", "Laptop", 1, 999⟩ (JsDraw.pos [1])
    ⟨⟨"1", "John Doe", "john@example.com"⟩, by decide, rfl⟩

/-- A creation request the code accepts (its user exists) whose quantity
is `0`: nothing in `createOrder` validates the body. -/
def c7Event : CreateEvent :=
  ⟨⟨"1", "Laptop", 0, 999⟩, directoryEnv, JsDraw.pos [1]⟩

/-- Counterexample to Claim C7: serving the single accepted request
`c7Event` reaches a state holding an order whose quantity is `0`, which is
not strictly greater than `0` — the data-model constraint does not hold at
all reachable states. -/
theorem c7_counterexample :
    ∃ o ∈ runCreates [c7Event],
      ¬ (0 < o.quantity ∧ o.quantity.den = 1 ∧ 0 ≤ o.total) := by
  refine ⟨⟨"1", "1", "Laptop", 0, 999⟩, by decide, ?_⟩
  intro hc
  exact absurd hc.1 (by decide)

/-- Every order a run of `createOrder` requests ever appends carries its
request's `userId`, `product`, `quantity` and `total` verbatim and a
`generateId` id: the state either stays put or grows by exactly that
order. -/
theorem createOrder_state_shape
    (st : List Order) (req : OrderReq)
    (env : String → HttpOutcome (ApiResponse User)) (draw : JsDraw) :
    (createOrder st req env draw).2 = st ∨
    (createOrder st req env draw).2
      = st ++ [⟨generateId draw, req.userId, req.product, req.quantity,
                req.total⟩] := by
  cases h : userSvcGetUserById env req.userId <;> simp [createOrder, h]

/-- An invariant on orders holds of every state reached by a run of
creation events as soon as it holds of the start state and of the order
each event would append. -/
theorem runCreates_invariant (P : Order → Prop) (evs : List CreateEvent)
    (st : List Order) (hst : ∀ o ∈ st, P o)
    (hevs : ∀ ev ∈ evs,
      P ⟨generateId ev.draw, ev.req.userId, ev.req.product, ev.req.quantity,
         ev.req.total⟩) :
    ∀ o ∈ evs.foldl (fun t ev => (createOrder t ev.req ev.env ev.draw).2) st,
      P o := by
  induction evs generalizing st with
  | nil => simpa using hst
  | cons ev rest ih =>
      simp only [List.foldl_cons]
      refine ih _ ?_ (fun e he => hevs e (List.mem_cons_of_mem _ he))
      rcases createOrder_state_shape st ev.req ev.env ev.draw with h | h
      · rw [h]; exact hst
      · rw [h]
        intro o ho
        rcases List.mem_append.mp ho with ho | ho
        · exact hst o ho
        · rw [List.mem_singleton.mp ho]
          exact hevs ev (List.mem_cons_self _ _)

/-- Claim C7 as amended: `createOrder` performs no validation, so the
data-model constraint (quantity a positive integer, total non-negative) is
an invariant of the reachable states only conditionally — it holds of every
stored order provided every request body served satisfied it. -/
theorem c7_amended_conditional_invariant (evs : List CreateEvent)
    (h : ∀ ev ∈ evs, 0 < ev.req.quantity ∧ ev.req.quantity.den = 1 ∧
      0 ≤ ev.req.total) :
    ∀ o ∈ runCreates evs, 0 < o.quantity ∧ o.quantity.den = 1 ∧
      0 ≤ o.total := by
  refine runCreates_invariant _ evs [] (by simp) ?_
  intro ev hev
  exact h ev hev

/-- Witness for the amended C7: one well-formed request, and the resulting
stored order satisfies the constraint. -/
theorem c7_amended_conditional_invariant_witness :
    0 < (Order.mk "1" "1" "Laptop" 1 999).quantity ∧
    (Order.mk "1" "1" "Laptop" 1 999).quantity.den = 1 ∧
    0 ≤ (Order.mk "1" "1" "Laptop" 1 999).total :=
  c7_amended_conditional_invariant
    [⟨⟨"1", "Laptop", 1, 999⟩, directoryEnv, JsDraw.pos [1]⟩]
    (by
      intro ev hev
      simp only [List.mem_singleton] at hev
      subst hev
      exact ⟨by decide, by decide, by decide⟩)
    (Order.mk "1" "1" "Laptop" 1 999) (by decide)

/-- Counterexample to Claim C5: in the plain variant, a request to
`GET /api/orders/:orderId` during a transport failure of the outbound
lookup ends as an escaped `async` rejection — no
`{success:false, error:...}` envelope is produced by the handler — so the
propagation policy does not hold in every source variant. -/
theorem c5_counterexample :
    plainGetOrder "42" (fun _ => HttpOutcome.netFail)
      = HandlerOutcome.unhandledRejection := rfl

/-- Claim C5 as amended: in the monorepo variant the policy holds — every
`createOrder` response is a well-formed envelope (success with data, or
failure with an error message), and the error middleware maps any error
reaching it to 500 `{success:false, error:formatError(err)}` — but in the
plain variant a rejected outbound lookup escapes the `getOrder` handler
unformatted. -/
theorem c5_amended_envelope_policy :
    (∀ err : JsError,
      (errorHandler err).status = 500 ∧
      (errorHandler err).body.success = false ∧
      (errorHandler err).body.error = some (formatError err)) ∧
    (∀ (st : List Order) (req : OrderReq)
      (env : String → HttpOutcome (ApiResponse User)) (draw : JsDraw),
      ((createOrder st req env draw).1.body.success = true ∧
        ((createOrder st req env draw).1.body.data).isSome = true ∧
        (createOrder st req env draw).1.body.error = none) ∨
      ((createOrder st req env draw).1.body.success = false ∧
        (createOrder st req env draw).1.body.data = none ∧
        ((createOrder st req env draw).1.body.error).isSome = true)) ∧
    (∃ env : String → HttpOutcome PlainUser,
      plainGetOrder "42" env = HandlerOutcome.unhandledRejection) := by
  refine ⟨fun err => ⟨rfl, rfl, rfl⟩, ?_, ⟨fun _ => HttpOutcome.netFail, rfl⟩⟩
  intro st req env draw
  cases h : userSvcGetUserById env req.userId <;> simp [createOrder, h]

/-- Claim C8: the monorepo lookup client is a total function into
user-or-null, and it yields a user exactly when the transport delivered a
2xx response whose envelope carried a data payload; in every other case
(non-2xx status, network error or timeout, 2xx with an absent payload) it
yields null. -/
theorem c8_lookup_client_total
    (env : String → HttpOutcome (ApiResponse User)) (userId : String)
    (u : User) :
    userSvcGetUserById env userId = some u ↔
      ∃ c body, env userId = HttpOutcome.status c body ∧
        (200 ≤ c ∧ c < 300) ∧ body.data = some u := by
  cases h : env userId with
  | status c body =>
      by_cases hc : 200 ≤ c ∧ c < 300
      · simp only [userSvcGetUserById, h, if_pos hc]
        constructor
        · intro hu
          exact ⟨c, body, rfl, hc, hu⟩
        · rintro ⟨c1, b1, he, hc1, hu⟩
          injection he with h1 h2
          subst h1
          subst h2
          exact hu
      · simp only [userSvcGetUserById, h, if_neg hc]
        constructor
        · intro hu
          exact absurd hu (by simp)
        · rintro ⟨c1, b1, he, hc1, hu⟩
          injection he with h1 h2
          subst h1
          exact absurd hc1 hc
  | netFail => simp [userSvcGetUserById, h]

/-- Claim C9: the plain variant's `GET /api/orders/:orderId` handler
consults the transport only at the hardcoded identifier `"1"` (two
environments agreeing there produce the same outcome, whatever is stored
anywhere else), and whenever it responds at all the response carries
product `"Laptop"` and echoes the path's `orderId`; the variant holds no
order collection for the handler to reflect. -/
theorem c9_plain_get_order_fixed
    (orderId : String) (env env2 : String → HttpOutcome PlainUser)
    (h : env "1" = env2 "1") (v : PlainOrderView)
    (hv : plainGetOrder orderId env = HandlerOutcome.responded v) :
    plainGetOrder orderId env2 = plainGetOrder orderId env ∧
    v.product = "Laptop" ∧ v.orderId = orderId := by
  constructor
  · simp [plainGetOrder, plainSvcGetUserById, h]
  · revert hv
    simp only [plainGetOrder]
    cases plainSvcGetUserById env "1" with
    | ok u =>
        intro hv
        cases HandlerOutcome.responded.injEq .. ▸ hv
        exact ⟨rfl, rfl⟩
    | error e => intro hv; cases hv

/-- Witness for C9 at `orderId = "42"` with a reachable directory. -/
theorem c9_plain_get_order_fixed_witness :
    plainGetOrder "42"
        (fun i => if i = "1"
          then HttpOutcome.status 200 ⟨"1", "John Doe", "admin"⟩
          else HttpOutcome.netFail)
      = plainGetOrder "42"
        (fun _ => HttpOutcome.status 200 ⟨"1", "John Doe", "admin"⟩) ∧
    (PlainOrderView.mk "42" "Laptop" ⟨"1", "John Doe", "admin"⟩).product
      = "Laptop" ∧
    (PlainOrderView.mk "42" "Laptop" ⟨"1", "John Doe", "admin"⟩).orderId
      = "42" :=
  c9_plain_get_order_fixed "42"
    (fun _ => HttpOutcome.status 200 ⟨"1", "John Doe", "admin"⟩)
    (fun i => if i = "1"
      then HttpOutcome.status 200 ⟨"1", "John Doe", "admin"⟩
      else HttpOutcome.netFail)
    (by simp) ⟨"42", "Laptop", ⟨"1", "John Doe", "admin"⟩⟩ rfl

/-- Helper for C10: every character `generateId` can emit is a base-36
digit `0-9` or `a-z`. -/
theorem base36Char_range (d : Fin 36) :
    ('0' ≤ base36Char d ∧ base36Char d ≤ '9') ∨
    ('a' ≤ base36Char d ∧ base36Char d ≤ 'z') := by
  revert d; decide

/-- Claim C10: `generateId` always yields at most 13 characters, each a
base-36 digit `0-9`/`a-z`; the draw `Math.random() = 0` yields the empty
string; and two calls can yield equal ids — even on distinct draws — so no
distinctness is guaranteed. -/
theorem c10_generate_id_shape :
    (∀ d : JsDraw, (generateId d).length ≤ 13 ∧
      ∀ c ∈ (generateId d).data,
        (('0' ≤ c ∧ c ≤ '9') ∨ ('a' ≤ c ∧ c ≤ 'z'))) ∧
    generateId JsDraw.zero = "" ∧
    (∃ d1 d2 : JsDraw, d1 ≠ d2 ∧ generateId d1 = generateId d2) := by
  refine ⟨?_, rfl, ?_⟩
  · intro d
    cases d with
    | zero => exact ⟨by decide, by decide⟩
    | pos ds =>
        constructor
        · show (String.mk _).length ≤ 13
          simp only [generateId, jsSubstring, jsToString36, String.length]
          calc (((("0." ++ String.mk (ds.map base36Char)).data.drop
                  (min 2 15)).take (max 2 15 - min 2 15))).length
              ≤ max 2 15 - min 2 15 := List.length_take_le _ _
            _ = 13 := by decide
        · intro c hc
          simp only [generateId, jsSubstring, jsToString36] at hc
          have hc2 : c ∈ (("0." ++ String.mk (ds.map base36Char)).data.drop
              (min 2 15)) := List.mem_of_mem_take hc
          have hd : ("0." ++ String.mk (ds.map base36Char)).data
              = '0' :: '.' :: ds.map base36Char := by
            simp [String.data_append]
          rw [hd] at hc2
          have hm : min 2 15 = 2 := rfl
          rw [hm] at hc2
          simp only [List.drop_succ_cons, List.drop_zero] at hc2
          have : c ∈ ds.map base36Char := by simpa using hc2
          obtain ⟨d, _, rfl⟩ := List.mem_map.mp this
          exact base36Char_range d
  · exact ⟨JsDraw.pos (List.replicate 13 1 ++ [1]),
      JsDraw.pos (List.replicate 13 1 ++ [2]), by decide, by decide⟩
